import Mathlib

/-!
# Verification of the VulTra vulnerability-detection pipeline

Shallow embedding of the repository's detection and remediation pipeline:

* a small JavaScript-regular-expression engine (AST, prioritized backtracking
  matcher, the stateful `lastIndex` behaviour of `RegExp.prototype.test` on
  `g`-flagged regexes, and the stateless all-matches behaviour of
  `String.prototype.match` with a `g` flag), together with a pattern parser
  modelling `new RegExp(source, "gi")` which can fail on malformed patterns;
* `LoggingSensitivityChecker` (sensitive-logging catalog detector);
* `SemanticLoggingAnalyzer` (keyword fallback, and the semantic path with the
  external embedding backend abstracted as an oracle);
* `RuleEngine` (rule store and pattern rule detector);
* `AISuggestionHandler` (suggestion generation and cache).

Machine integers appear only in the 32-bit string hash, modelled on `Int`
with explicit wrapping.  All definitions are executable.
-/

/-! ## Character predicates (JavaScript regex semantics, ASCII fragment) -/

/-- JavaScript `\w`: `[A-Za-z0-9_]`. -/
def isWordChar (c : Char) : Bool :=
  (97 ≤ c.toNat && c.toNat ≤ 122) || (65 ≤ c.toNat && c.toNat ≤ 90) ||
  (48 ≤ c.toNat && c.toNat ≤ 57) || c.toNat == 95

/-- JavaScript `\s` (ASCII part plus NBSP; the analysed inputs are ASCII). -/
def isSpaceChar (c : Char) : Bool :=
  c.toNat == 32 || c.toNat == 9 || c.toNat == 10 || c.toNat == 13 ||
  c.toNat == 11 || c.toNat == 12 || c.toNat == 160

/-- JavaScript `\d`: `[0-9]`. -/
def isDigitChar (c : Char) : Bool :=
  48 ≤ c.toNat && c.toNat ≤ 57

/-- Range membership for a character class item such as `a-z`. -/
def inCharRange (lo hi c : Char) : Bool :=
  lo.toNat ≤ c.toNat && c.toNat ≤ hi.toNat

/-! ## Regex abstract syntax -/

/-- One item of a character class `[...]`. -/
inductive CItem where
  | ch (c : Char)
  | range (lo hi : Char)
  | wordC
  | spaceC
  | digitC
deriving DecidableEq, Repr

/-- Regular-expression AST covering the constructs used by the repository's
patterns: literals, character classes, `.`, `\b`, concatenation, alternation
and greedy star.  `+`, `?` and bounded repetitions are desugared. -/
inductive Regex where
  | eps
  | lit (c : Char)
  | cls (neg : Bool) (items : List CItem)
  | dot
  | wordB
  | cat (r1 r2 : Regex)
  | alt (r1 r2 : Regex)
  | star (r : Regex)
deriving DecidableEq, Repr

/-- Class item match, honouring the `i` flag the way JavaScript canonicalizes
(for the ASCII fragment: compare lower-cased, and let ranges accept both
cases). -/
def citemMatches (ci : Bool) : CItem → Char → Bool
  | .ch d, c => if ci then d.toLower == c.toLower else d == c
  | .range lo hi, c =>
      inCharRange lo hi c ||
      (ci && (inCharRange lo hi c.toLower || inCharRange lo hi c.toUpper))
  | .wordC, c => isWordChar c
  | .spaceC, c => isSpaceChar c
  | .digitC, c => isDigitChar c

/-- Character class match with negation. -/
def classMatches (ci : Bool) (neg : Bool) (items : List CItem) (c : Char) : Bool :=
  if neg then !(items.any fun it => citemMatches ci it c)
  else items.any fun it => citemMatches ci it c

/-- JavaScript `\b`: position `i` of `s` is a word boundary iff exactly one of
the neighbouring characters is a word character. -/
def isWordBoundary (s : List Char) (i : Nat) : Bool :=
  let before := match i with
    | 0 => false
    | j+1 => match s[j]? with
      | some c => isWordChar c
      | none => false
  let after := match s[i]? with
    | some c => isWordChar c
    | none => false
  before != after

/-- Greedy-star expansion: all end positions reachable by iterating `step`,
longest-preferred first, with the ECMAScript rule that an iteration must
consume at least one character (which also bounds the fuel). -/
def starEnds (step : Nat → List Nat) : Nat → Nat → List Nat
  | 0, i => [i]
  | f+1, i =>
      (((step i).filter fun j => decide (i < j)).flatMap fun j =>
        starEnds step f j) ++ [i]

/-- All end positions of a match of `r` starting at position `i` of `s`, in
the backtracking priority order of the ECMAScript matcher (alternation is
left-biased, star is greedy).  The head, when present, is the end position the
JavaScript engine reports. -/
def matchEnds (ci : Bool) (s : List Char) : Regex → Nat → List Nat
  | .eps, i => [i]
  | .lit c, i =>
      match s[i]? with
      | some d => if (if ci then c.toLower == d.toLower else c == d) then [i+1] else []
      | none => []
  | .cls neg items, i =>
      match s[i]? with
      | some d => if classMatches ci neg items d then [i+1] else []
      | none => []
  | .dot, i =>
      match s[i]? with
      | some d =>
          if d.toNat == 10 || d.toNat == 13 || d.toNat == 8232 || d.toNat == 8233 then []
          else [i+1]
      | none => []
  | .wordB, i => if isWordBoundary s i then [i] else []
  | .cat r1 r2, i => (matchEnds ci s r1 i).flatMap (matchEnds ci s r2)
  | .alt r1 r2, i => matchEnds ci s r1 i ++ matchEnds ci s r2 i
  | .star r, i => starEnds (matchEnds ci s r) (s.length + 1 - i) i

/-- Scan loop of `RegExpBuiltinExec`: try successive start positions. -/
def execFromGo (ci : Bool) (r : Regex) (s : List Char) : Nat → Nat → Option (Nat × Nat)
  | 0, _ => none
  | f+1, i =>
      match matchEnds ci s r i with
      | e :: _ => some (i, e)
      | [] => execFromGo ci r s f (i+1)

/-- `exec` of a `g`-flagged regex on `s` from `start` (the regex's
`lastIndex`): the leftmost match with start ≥ `start`, as `(start, end)`
offsets; `none` when there is no match (including `start > s.length`). -/
def execFrom (ci : Bool) (r : Regex) (s : List Char) (start : Nat) : Option (Nat × Nat) :=
  execFromGo ci r s (s.length + 1 - start) start

/-- `RegExp.prototype.test` on a `g`-flagged regex: stateful in `lastIndex`.
On success `lastIndex` becomes the match end; on failure it resets to 0. -/
def jsTestG (ci : Bool) (r : Regex) (s : List Char) (lastIndex : Nat) : Bool × Nat :=
  match execFrom ci r s lastIndex with
  | some (_, e) => (true, e)
  | none => (false, 0)

/-- Collect all `(start, end)` matches the way `String.prototype.match` with a
`g` flag does, advancing past empty matches. -/
def matchAllGo (ci : Bool) (r : Regex) (s : List Char) : Nat → Nat → List (Nat × Nat)
  | 0, _ => []
  | f+1, i =>
      match execFrom ci r s i with
      | some (b, e) => (b, e) :: matchAllGo ci r s f (if e == b then e+1 else e)
      | none => []

/-- The substring of `s` from offset `b` (inclusive) to `e` (exclusive). -/
def sliceStr (s : List Char) (b e : Nat) : String :=
  String.mk ((s.drop b).take (e - b))

/-- Split a character list at newline characters (JavaScript
`split("\n")`). -/
def splitLinesChars : List Char → List (List Char)
  | [] => [[]]
  | c :: rest =>
      let r := splitLinesChars rest
      if c.toNat == 10 then [] :: r
      else
        match r with
        | [] => [[c]]
        | l :: ls => (c :: l) :: ls

/-- JavaScript `code.split("\n")`. -/
def jsSplitNewline (s : String) : List String :=
  (splitLinesChars s.data).map String.mk

/-- Lower-case a string character-wise (JavaScript `toLowerCase`, ASCII
fragment). -/
def lowerStr (s : String) : String :=
  String.mk (s.data.map Char.toLower)

/-- Does `needle` occur as a contiguous substring of `hay`? -/
def containsSub (needle : List Char) : List Char → Bool
  | [] => needle.isEmpty
  | c :: rest => List.isPrefixOf needle (c :: rest) || containsSub needle rest

/-- Decidable equality for `Except`, needed to evaluate `applyRules` results
in closed theorems. -/
instance exceptDecEq {ε α : Type} [DecidableEq ε] [DecidableEq α] :
    DecidableEq (Except ε α)
  | .error e1, .error e2 =>
      if h : e1 = e2 then .isTrue (by rw [h]) else .isFalse (by intro hh; cases hh; exact h rfl)
  | .error _, .ok _ => .isFalse (by intro hh; cases hh)
  | .ok _, .error _ => .isFalse (by intro hh; cases hh)
  | .ok a, .ok b =>
      if h : a = b then .isTrue (by rw [h]) else .isFalse (by intro hh; cases hh; exact h rfl)

/-- `String.prototype.match` with a `g`-flagged regex: the list of matched
substrings (`null` in JavaScript is modelled by the empty list).  This
operation resets `lastIndex` and is stateless. -/
def jsMatchG (ci : Bool) (r : Regex) (line : String) : List String :=
  (matchAllGo ci r line.data (line.data.length + 1) 0).map fun be =>
    sliceStr line.data be.1 be.2

/-- `Array.prototype.some (p => p.test(line))` over `g`-flagged regexes whose
`lastIndex` values are threaded through: evaluation is left-to-right and
short-circuits at the first success, leaving the remaining regexes' states
untouched. -/
def someTestG (ci : Bool) : List Regex → String → List Nat → Bool × List Nat
  | [], _, st => (false, st)
  | _, _, [] => (false, [])
  | p :: ps, line, li :: lis =>
      let (b, li2) := jsTestG ci p line.data li
      if b then (true, li2 :: lis)
      else
        let r := someTestG ci ps line lis
        (r.1, li2 :: r.2)

/-! ## Regex pattern parser, modelling `new RegExp(pattern, "gi")`

`new RegExp` throws a `SyntaxError` on a malformed pattern; the parser
returns `none` there.  The grammar covers the constructs appearing in the
repository's rule patterns (alternation, groups, non-capturing groups,
character classes with ranges and negation, the escapes `\w \s \d \b` and
escaped punctuation, quantifiers `* + ?` and `{n} {n,} {n,m}`).  Constructs
outside the fragment (lookarounds, back-references, anchors, lazy
quantifiers, unicode escapes) are rejected; that over-rejection is harmless
for the properties proved here, which only use rejection of genuinely
malformed patterns and acceptance of the concrete patterns of the sources. -/

/-- `r` repeated exactly `n` times. -/
def repExact (r : Regex) : Nat → Regex
  | 0 => .eps
  | n+1 => .cat r (repExact r n)

/-- `r` repeated at most `n` times (greedy). -/
def repOpt (r : Regex) : Nat → Regex
  | 0 => .eps
  | n+1 => .cat (.alt r .eps) (repOpt r n)

/-- Read a run of digits with an accumulator (decimal value so far). -/
def readDigitsAcc (acc : Nat) : List Char → Nat × List Char
  | c :: rest =>
      if isDigitChar c then readDigitsAcc (acc * 10 + (c.toNat - 48)) rest
      else (acc, c :: rest)
  | [] => (acc, [])

/-- Escape of a single character after a backslash, outside classes. -/
def parseEscapeChar (c : Char) : Option Regex :=
  if c.toNat == 119 then some (.cls false [.wordC])        -- w
  else if c.toNat == 87 then some (.cls true [.wordC])     -- W
  else if c.toNat == 115 then some (.cls false [.spaceC])  -- s
  else if c.toNat == 83 then some (.cls true [.spaceC])    -- S
  else if c.toNat == 100 then some (.cls false [.digitC])  -- d
  else if c.toNat == 68 then some (.cls true [.digitC])    -- D
  else if c.toNat == 98 then some .wordB                   -- b
  else if c.toNat == 66 then none                          -- B unsupported
  else if c.toNat == 110 then some (.lit (Char.ofNat 10))  -- n
  else if c.toNat == 116 then some (.lit (Char.ofNat 9))   -- t
  else if c.toNat == 114 then some (.lit (Char.ofNat 13))  -- r
  else if c.toNat == 102 then some (.lit (Char.ofNat 12))  -- f
  else if c.toNat == 118 then some (.lit (Char.ofNat 11))  -- v
  else if c.toNat == 48 then some (.lit (Char.ofNat 0))    -- 0
  else if 49 ≤ c.toNat && c.toNat ≤ 57 then none           -- back-references unsupported
  else if c.toNat == 117 || c.toNat == 120 || c.toNat == 99 then none -- u x c unsupported
  else some (.lit c)

/-- Escape of a single character inside a character class. -/
def parseClassEscape (c : Char) : Option CItem :=
  if c.toNat == 119 then some .wordC
  else if c.toNat == 115 then some .spaceC
  else if c.toNat == 100 then some .digitC
  else if c.toNat == 110 then some (.ch (Char.ofNat 10))
  else if c.toNat == 116 then some (.ch (Char.ofNat 9))
  else if c.toNat == 114 then some (.ch (Char.ofNat 13))
  else if c.toNat == 102 then some (.ch (Char.ofNat 12))
  else if c.toNat == 118 then some (.ch (Char.ofNat 11))
  else if c.toNat == 98 then some (.ch (Char.ofNat 8))     -- backspace inside class
  else if c.toNat == 117 || c.toNat == 120 || c.toNat == 99 then none
  else if c.toNat == 87 || c.toNat == 83 || c.toNat == 68 then none
  else some (.ch c)

/-- Items of a character class, up to the closing bracket. -/
def parseClassItems : Nat → List Char → Option (List CItem × List Char)
  | 0, _ => none
  | _, [] => none                                          -- unterminated class
  | f+1, c :: rest =>
      if c.toNat == 93 then some ([], rest)                -- closing bracket
      else if c.toNat == 92 then                           -- backslash
        match rest with
        | [] => none
        | e :: rest2 => do
            let it ← parseClassEscape e
            let (its, rest3) ← parseClassItems f rest2
            pure (it :: its, rest3)
      else
        match rest with
        | d :: hi :: rest2 =>
            if d.toNat == 45 && hi.toNat != 93 then        -- range lo-hi
              if hi.toNat == 92 then none                  -- escaped hi unsupported
              else do
                let (its, rest3) ← parseClassItems f rest2
                pure (.range c hi :: its, rest3)
            else do
              let (its, rest3) ← parseClassItems f rest
              pure (.ch c :: its, rest3)
        | _ => do
            let (its, rest3) ← parseClassItems f rest
            pure (.ch c :: its, rest3)

/-- A character class after its opening bracket. -/
def parseClass (f : Nat) (cs : List Char) : Option (Regex × List Char) := do
  match cs with
  | c :: rest =>
      if c.toNat == 94 then do                             -- caret: negated
        let (its, rest2) ← parseClassItems f rest
        pure (.cls true its, rest2)
      else do
        let (its, rest2) ← parseClassItems f cs
        pure (.cls false its, rest2)
  | [] => none

/-- Quantifier following an atom; an invalid `{` sequence is treated as a
literal left brace (web-compat behaviour), a lazy quantifier is rejected. -/
def parseQuant (a : Regex) (cs : List Char) : Option (Regex × List Char) :=
  match cs with
  | c :: rest =>
      if c.toNat == 42 then                                -- star
        match rest with
        | q :: _ => if q.toNat == 63 then none else some (.star a, rest)
        | [] => some (.star a, rest)
      else if c.toNat == 43 then                           -- plus
        match rest with
        | q :: _ => if q.toNat == 63 then none else some (.cat a (.star a), rest)
        | [] => some (.cat a (.star a), rest)
      else if c.toNat == 63 then                           -- question mark
        match rest with
        | q :: _ => if q.toNat == 63 then none else some (.alt a .eps, rest)
        | [] => some (.alt a .eps, rest)
      else if c.toNat == 123 then                          -- left brace
        match rest with
        | d :: _ =>
            if isDigitChar d then
              let (n, rest2) := readDigitsAcc 0 rest
              match rest2 with
              | e :: rest3 =>
                  if e.toNat == 125 then some (repExact a n, rest3)
                  else if e.toNat == 44 then               -- comma
                    match rest3 with
                    | g :: rest4 =>
                        if g.toNat == 125 then some (.cat (repExact a n) (.star a), rest4)
                        else if isDigitChar g then
                          let (m, rest5) := readDigitsAcc 0 rest3
                          match rest5 with
                          | h :: rest6 =>
                              if h.toNat == 125 then
                                if n ≤ m then some (.cat (repExact a n) (repOpt a (m - n)), rest6)
                                else none
                              else some (a, cs)
                          | [] => some (a, cs)
                        else some (a, cs)
                    | [] => some (a, cs)
                  else some (a, cs)
              | [] => some (a, cs)
            else some (a, cs)
        | [] => some (a, cs)
      else some (a, cs)
  | [] => some (a, cs)

mutual

/-- A disjunction (`|`-separated alternatives). -/
def parseAlt : Nat → List Char → Option (Regex × List Char)
  | 0, _ => none
  | f+1, cs => do
      let (r, rest) ← parseSeq f cs
      match rest with
      | c :: rest2 =>
          if c.toNat == 124 then do                        -- vertical bar
            let (r2, rest3) ← parseAlt f rest2
            pure (.alt r r2, rest3)
          else pure (r, rest)
      | [] => pure (r, [])

/-- A (possibly empty) sequence of quantified atoms. -/
def parseSeq : Nat → List Char → Option (Regex × List Char)
  | 0, _ => none
  | f+1, cs =>
      match cs with
      | [] => some (.eps, [])
      | c :: _ =>
          if c.toNat == 124 || c.toNat == 41 then some (.eps, cs)
          else do
            let (a, rest) ← parseAtomQ f cs
            let (b, rest2) ← parseSeq f rest
            pure (.cat a b, rest2)

/-- An atom with its optional quantifier. -/
def parseAtomQ : Nat → List Char → Option (Regex × List Char)
  | 0, _ => none
  | f+1, cs => do
      let (a, rest) ← parseAtom f cs
      parseQuant a rest

/-- A single atom. -/
def parseAtom : Nat → List Char → Option (Regex × List Char)
  | 0, _ => none
  | f+1, cs =>
      match cs with
      | [] => none
      | c :: rest =>
          if c.toNat == 40 then                            -- left paren
            match rest with
            | q :: rest2 =>
                if q.toNat == 63 then
                  match rest2 with
                  | k :: rest3 =>
                      if k.toNat == 58 then do             -- non-capturing group
                        let (r, rest4) ← parseAlt f rest3
                        match rest4 with
                        | e :: rest5 => if e.toNat == 41 then pure (r, rest5) else none
                        | [] => none
                      else none                            -- lookarounds unsupported
                  | [] => none
                else do
                  let (r, rest4) ← parseAlt f rest
                  match rest4 with
                  | e :: rest5 => if e.toNat == 41 then pure (r, rest5) else none
                  | [] => none
            | [] => none                                   -- lone open paren: malformed
          else if c.toNat == 91 then parseClass f rest     -- left bracket
          else if c.toNat == 92 then                       -- backslash
            match rest with
            | e :: rest2 => do
                let r ← parseEscapeChar e
                pure (r, rest2)
            | [] => none                                   -- trailing backslash: malformed
          else if c.toNat == 42 || c.toNat == 43 || c.toNat == 63 then none
          else if c.toNat == 41 || c.toNat == 124 then none
          else if c.toNat == 46 then some (.dot, rest)     -- full stop
          else if c.toNat == 94 || c.toNat == 36 then none -- anchors unsupported
          else some (.lit c, rest)

end

/-- `new RegExp(p, "gi")`: `some` compiled regex, or `none` when the pattern
is malformed (`SyntaxError`). -/
def compilePattern (p : String) : Option Regex :=
  match parseAlt (p.data.length * 4 + 8) p.data with
  | some (r, []) => some r
  | _ => none

/-! ## Regex construction helpers (for the hard-coded pattern literals) -/

/-- Concatenation of a list of regexes. -/
def rcats (l : List Regex) : Regex := l.foldr .cat .eps

/-- Left-biased alternation of a list of regexes. -/
def ralts : List Regex → Regex
  | [] => .eps
  | [r] => r
  | r :: rest => .alt r (ralts rest)

/-- The literal string `s` as a regex. -/
def rstr (s : String) : Regex := rcats (s.data.map .lit)

/-- An alternation of literal words, in source order. -/
def rwords (ws : List String) : Regex := ralts (ws.map rstr)

/-- `\s*`. -/
def wsStar : Regex := .star (.cls false [.spaceC])

/-- `\w+`. -/
def wordPlus : Regex := .cat (.cls false [.wordC]) (.star (.cls false [.wordC]))

/-- `\w*`. -/
def wordStar : Regex := .star (.cls false [.wordC])

/-- The double-quote character. -/
def dquoteC : Char := Char.ofNat 34

/-- The single-quote character. -/
def squoteC : Char := Char.ofNat 39

/-! ## Data model (`src/types/index.ts`)

`VulnerabilityIssue` from `src/types/index.ts`.  The `range` and `diagnostic`
fields are opaque collaborator-owned handles that every detector sets to
`null`; they carry no information in the core pipeline and are omitted from
the embedding. -/

/-- Severity scale; issues use `low/medium/high`, rules may also be
`critical`. -/
inductive Severity where
  | low
  | medium
  | high
  | critical
deriving DecidableEq, Repr

/-- One detected finding tied to a line of a file. -/
structure VulnerabilityIssue where
  fileName : String
  lineNumber : Nat
  description : String
  severity : Severity
  message : String
  suggestedFix : String
deriving DecidableEq, Repr

/-! ## `LoggingSensitivityChecker` (sensitive-logging catalog detector) -/

/-- One entry of the sensitive-pattern catalog. -/
structure SensitivePattern where
  regex : Regex
  description : String
  severity : Severity
  category : String

/-- The word group `(info|debug|warn|error|trace)`. -/
def loggerVerbs : Regex := rwords ["info", "debug", "warn", "error", "trace"]

/-- `LoggingSensitivityChecker.loggerPatterns`: the six `gi`-flagged logging
signatures, in source order. -/
def loggerPatterns : List Regex :=
  [ rcats [rstr "LOGGER.", loggerVerbs, wsStar, .lit (Char.ofNat 40)],
    rcats [rstr "LOG.", loggerVerbs, wsStar, .lit (Char.ofNat 40)],
    rcats [rstr "logger.", loggerVerbs, wsStar, .lit (Char.ofNat 40)],
    rcats [rstr "log.", loggerVerbs, wsStar, .lit (Char.ofNat 40)],
    rcats [rstr "System.out.print", .alt (rstr "ln") .eps, wsStar, .lit (Char.ofNat 40)],
    rcats [rstr "System.err.print", .alt (rstr "ln") .eps, wsStar, .lit (Char.ofNat 40)] ]

/-- `LoggingSensitivityChecker.sensitiveMethodPatterns`: the fixed catalog of
eleven categorized sensitive patterns, in source order. -/
def sensitiveMethodPatterns : List SensitivePattern :=
  [ { regex := rcats [rstr ".get", rwords ["Customer", "User", "Personal", "Profile", "Account"], rstr "Data()"],
      description := "Customer/user data is being logged - potential PII exposure",
      severity := .high, category := "PII" },
    { regex := rcats [rstr ".get", rwords ["Customer", "User", "Client"],
        rwords ["Info", "Information", "Details"], rstr "()"],
      description := "Customer information is being logged - potential PII exposure",
      severity := .high, category := "PII" },
    { regex := rcats [rstr ".get", rwords ["Password", "Pass", "Pwd", "Secret", "Token", "Key"], rstr "()"],
      description := "Password/secret data is being logged - security risk",
      severity := .high, category := "Credentials" },
    { regex := rcats [rstr ".", rwords ["password", "pass", "pwd", "secret", "token", "key"], .wordB],
      description := "Sensitive credential field is being logged",
      severity := .high, category := "Credentials" },
    { regex := rcats [rstr ".get", rwords ["Api", "API"], rwords ["Key", "Token", "Secret"], rstr "()"],
      description := "API key/token is being logged - security risk",
      severity := .high, category := "API_Credentials" },
    { regex := rcats [rstr ".", rwords ["apiKey", "apiToken", "accessToken", "authToken", "bearerToken"], .wordB],
      description := "API credentials are being logged",
      severity := .high, category := "API_Credentials" },
    { regex := rcats [rstr ".get", rwords ["SSN", "SocialSecurity", "CreditCard", "Email", "Phone", "Address"], rstr "()"],
      description := "Personal identifiable information (PII) is being logged",
      severity := .high, category := "PII" },
    { regex := rcats [rstr ".", rwords ["ssn", "socialSecurity", "creditCard", "email", "phone",
        "address", "firstName", "lastName"], .wordB],
      description := "PII field is being logged",
      severity := .medium, category := "PII" },
    { regex := rcats [rstr ".get", rwords ["Account", "Bank", "Card", "Payment"],
        rwords ["Number", "Info", "Data", "Details"], rstr "()"],
      description := "Financial information is being logged - compliance risk",
      severity := .high, category := "Financial" },
    { regex := rcats [rstr ".get", rwords ["Session", "Cookie", "Auth"], rwords ["Id", "Data", "Info"], rstr "()"],
      description := "Session/authentication data is being logged",
      severity := .medium, category := "Session" },
    { regex := rstr ".getData()",
      description := "Generic data method is being logged - review for sensitive content",
      severity := .low, category := "Generic" } ]

/-- `LoggingSensitivityChecker.generateSuggestedFix`. -/
def generateSuggestedFix (category : String) (matchedPattern : String) : String :=
  if category = "PII" then
    "Remove PII logging. Consider logging only non-sensitive identifiers like user ID or hashed values. Replace \"" ++ matchedPattern ++ "\" with sanitized data."
  else if category = "Credentials" then
    "Never log passwords or secrets. Remove \"" ++ matchedPattern ++ "\" from log statement. Use masked values like \"***\" for debugging if necessary."
  else if category = "API_Credentials" then
    "API keys should never be logged. Remove \"" ++ matchedPattern ++ "\" and consider logging only the first/last few characters for debugging."
  else if category = "Financial" then
    "Financial data logging violates compliance standards. Remove \"" ++ matchedPattern ++ "\" and log only transaction IDs or sanitized references."
  else if category = "Session" then
    "Session data can be used for session hijacking. Remove \"" ++ matchedPattern ++ "\" and log only session status or sanitized session info."
  else if category = "Generic" then
    "Review the content of \"" ++ matchedPattern ++ "\" to ensure no sensitive data is logged. Consider creating specific non-sensitive logging methods."
  else
    "Review and remove sensitive data from logging statement containing \"" ++ matchedPattern ++ "\"."

/-- `LoggingSensitivityChecker.checkSensitivePatterns`: one Issue per catalog
match on the line (the catalog patterns are only used through
`String.prototype.match`, which is stateless). -/
def checkSensitivePatterns (line : String) (lineNumber : Nat) : List VulnerabilityIssue :=
  sensitiveMethodPatterns.flatMap fun sp =>
    (jsMatchG true sp.regex line).map fun m =>
      { lineNumber := lineNumber,
        description := sp.description ++ ": \"" ++ m ++ "\"",
        severity := sp.severity,
        suggestedFix := generateSuggestedFix sp.category m,
        fileName := "",
        message := "Sensitive data is been exposed in log" }

/-- Loop of `checkLoggingSensitivity` over the lines, threading the
`lastIndex` state of the six `g`-flagged `loggerPatterns` (the source calls
`pattern.test(line)` on instance-level regexes, so this state persists across
lines and across calls). -/
def checkLSGo (st : List Nat) (idx : Nat) : List String → List VulnerabilityIssue × List Nat
  | [] => ([], st)
  | line :: rest =>
      let h := someTestG true loggerPatterns line st
      let headIssues := if h.1 then checkSensitivePatterns line (idx + 1) else []
      let t := checkLSGo h.2 (idx + 1) rest
      (headIssues ++ t.1, t.2)

/-- The `lastIndex` state of a freshly constructed `LoggingSensitivityChecker`. -/
def freshCheckerState : List Nat := List.replicate 6 0

/-- `LoggingSensitivityChecker.checkLoggingSensitivity`, with the instance's
regex state made explicit: it returns the issues and the updated state. -/
def checkLoggingSensitivity (code : String) (st : List Nat) :
    List VulnerabilityIssue × List Nat :=
  checkLSGo st 0 (jsSplitNewline code)

/-! ## `SemanticLoggingAnalyzer` (`src/analyzer/semanticLoggingAnalyzer.ts`) -/

/-- `SENSITIVE_KEYWORDS`, in object-insertion order. -/
def SENSITIVE_KEYWORDS : List (String × List String) :=
  [ ("user_data", ["user", "customer", "userdetails", "profile", "personal", "individual"]),
    ("authentication", ["password", "secret", "token", "auth", "credential", "login"]),
    ("api_security", ["api", "apikey", "bearer", "oauth", "authorization"]),
    ("financial", ["payment", "card", "account number", "billing", "transaction", "money"]),
    ("personal_info", ["email", "phone", "address", "ssn", "social security", "pii"]) ]

/-- `Object.values(SENSITIVE_KEYWORDS).flat()`. -/
def allSensitiveKeywords : List String :=
  SENSITIVE_KEYWORDS.flatMap fun p => p.2

/-- `LOGGING_PATTERNS`: the three `gi`-flagged logging signatures of the
semantic analyzer, in source order. -/
def semLoggingPatterns : List Regex :=
  [ rcats [rwords ["LOGGER", "LOG", "logger", "log"], wsStar, .lit (Char.ofNat 46), wsStar,
      rwords ["info", "debug", "warn", "error", "trace", "severe", "warning"], wsStar, .lit (Char.ofNat 40)],
    rcats [rstr "System", wsStar, .lit (Char.ofNat 46), wsStar, rstr "out", wsStar, .lit (Char.ofNat 46), wsStar,
      rstr "print", .alt (rstr "ln") .eps, wsStar, .lit (Char.ofNat 40)],
    rcats [rstr "System", wsStar, .lit (Char.ofNat 46), wsStar, rstr "err", wsStar, .lit (Char.ofNat 46), wsStar,
      rstr "print", .alt (rstr "ln") .eps, wsStar, .lit (Char.ofNat 40)] ]

/-- `SIMILARITY_THRESHOLD = 0.85`. -/
def SIMILARITY_THRESHOLD : ℚ := 85 / 100

/-- A semantic similarity match (produced by the embedding backend; the
similarity, a float in the source, is modelled as a rational). -/
structure SemanticMatch where
  keyword : String
  similarity : ℚ
  matchedText : String
  category : String

/-- `Number.prototype.toFixed(1)` on a nonnegative value (round half up). -/
def toFixed1 (q : ℚ) : String :=
  let n : Int := ⌊q * 10 + 1 / 2⌋
  toString (n / 10) ++ "." ++ toString (n % 10)

/-- `getSeverityByCategory`. -/
def getSeverityByCategory (category : String) : Severity :=
  if category = "authentication" then .high
  else if category = "api_security" then .high
  else if category = "financial" then .high
  else if category = "personal_info" then .high
  else if category = "user_data" then .medium
  else .medium

/-- `SemanticLoggingAnalyzer.getSuggestedFix`. -/
def getSuggestedFixSem (category : String) (matchedText : String) : String :=
  if category = "authentication" then
    "Remove authentication data \"" ++ matchedText ++ "\" from logging. Never log passwords, tokens, or credentials. Use masked values or omit entirely."
  else if category = "api_security" then
    "Remove API security data \"" ++ matchedText ++ "\" from logging. Log only non-sensitive request metadata or operation status."
  else if category = "financial" then
    "Remove financial data \"" ++ matchedText ++ "\" from logging. Log only transaction IDs or sanitized references for compliance."
  else if category = "personal_info" then
    "Remove personal information \"" ++ matchedText ++ "\" from logging. Use hashed values or user IDs instead of PII."
  else if category = "user_data" then
    "Review user data \"" ++ matchedText ++ "\" in logging. Consider logging only user IDs or non-sensitive metadata."
  else
    "Review sensitive data \"" ++ matchedText ++ "\" in logging statement and remove if it contains confidential information."

/-- `replace(/^\.\s*/, "")`: strip the leading dot and whitespace. -/
def stripLeadingDotWs (s : String) : String :=
  match s.data with
  | c :: rest => if c.toNat == 46 then String.mk (rest.dropWhile fun d => isSpaceChar d) else s
  | [] => s

/-- `extractLoggedContent`: quoted string literals (`g` flag only, case
sensitive), `getXxx()` accessor calls (`gi`), and identifiers containing a
sensitive root word (`gi`); keep only candidates longer than two
characters. -/
def extractLoggedContent (line : String) : List String :=
  let strLitRe : Regex :=
    .alt (rcats [.lit dquoteC, .cat (.cls true [.ch dquoteC]) (.star (.cls true [.ch dquoteC])), .lit dquoteC])
         (rcats [.lit squoteC, .cat (.cls true [.ch squoteC]) (.star (.cls true [.ch squoteC])), .lit squoteC])
  let stringMatches := (jsMatchG false strLitRe line).map fun s =>
    String.mk (s.data.drop 1).dropLast
  let methodRe : Regex := rcats [.lit (Char.ofNat 46), wsStar, rstr "get", wordPlus, rstr "()"]
  let methodMatches := (jsMatchG true methodRe line).map stripLeadingDotWs
  let varRe : Regex := rcats [.wordB, wordStar,
    rwords ["user", "customer", "pass", "secret", "token", "key", "auth", "account", "payment"],
    wordStar, .wordB]
  let variableMatches := jsMatchG true varRe line
  (stringMatches ++ methodMatches ++ variableMatches).filter fun c => decide (2 < c.length)

/-- `analyzeLoggingLine`, with `findSemanticMatches` abstracted as the oracle
`fm` (its result depends on the external embedding backend; it catches its
own errors internally and always returns a list). -/
def analyzeLoggingLine (fm : String → List SemanticMatch) (line : String)
    (lineNumber : Nat) : List VulnerabilityIssue :=
  (extractLoggedContent line).flatMap fun content =>
    ((fm content).filter fun m => decide (SIMILARITY_THRESHOLD ≤ m.similarity)).map fun m =>
      { lineNumber := lineNumber,
        description := "Potential sensitive " ++ m.category ++ " detected in logging: \"" ++
          m.matchedText ++ "\" (similarity: " ++ toFixed1 (m.similarity * 100) ++ "%)",
        severity := getSeverityByCategory m.category,
        suggestedFix := getSuggestedFixSem m.category m.matchedText,
        fileName := "",
        message := "Potential sensitive information detected in logging:" }

/-- `fallbackLineAnalysis`: pure keyword matching; every issue is emitted
with severity `medium` and a generic keyword-matching description.  The
keyword regex is constructed afresh on every use, so it carries no state. -/
def fallbackLineAnalysis (line : String) (lineNumber : Nat) : List VulnerabilityIssue :=
  allSensitiveKeywords.flatMap fun kw =>
    (jsMatchG true (rcats [.wordB, rstr kw, .wordB]) line).map fun m =>
      { lineNumber := lineNumber,
        description := "Potential sensitive keyword detected in logging: \"" ++ m ++ "\" (keyword matching)",
        severity := .medium,
        suggestedFix := "Review and remove sensitive keyword \"" ++ m ++ "\" from logging statement.",
        fileName := "",
        message := "Potential sensitive information detected in logging:" }

/-- Loop of `fallbackKeywordAnalysis` over the lines, threading the
`lastIndex` state of the three `g`-flagged `LOGGING_PATTERNS`. -/
def fallbackKWGo (st : List Nat) (idx : Nat) : List String → List VulnerabilityIssue × List Nat
  | [] => ([], st)
  | line :: rest =>
      let h := someTestG true semLoggingPatterns line st
      let headIssues := if h.1 then fallbackLineAnalysis line (idx + 1) else []
      let t := fallbackKWGo h.2 (idx + 1) rest
      (headIssues ++ t.1, t.2)

/-- The `lastIndex` state of a freshly constructed `SemanticLoggingAnalyzer`. -/
def freshAnalyzerState : List Nat := List.replicate 3 0

/-- `fallbackKeywordAnalysis`, with the instance's regex state explicit. -/
def fallbackKeywordAnalysis (code : String) (st : List Nat) :
    List VulnerabilityIssue × List Nat :=
  fallbackKWGo st 0 (jsSplitNewline code)

/-- Loop of the `Ready` path of `analyzeLoggingStatements`.  The try/catch
around `analyzeLoggingLine` is unreachable here because
`findSemanticMatches` catches its own errors, so no per-line fallback
occurs. -/
def analyzeSemGo (fm : String → List SemanticMatch) (st : List Nat) (idx : Nat) :
    List String → List VulnerabilityIssue × List Nat
  | [] => ([], st)
  | line :: rest =>
      let h := someTestG true semLoggingPatterns line st
      let headIssues := if h.1 then analyzeLoggingLine fm line (idx + 1) else []
      let t := analyzeSemGo fm h.2 (idx + 1) rest
      (headIssues ++ t.1, t.2)

/-- `analyzeLoggingStatements`: while the embedding backend is not
initialized, the whole call degrades to `fallbackKeywordAnalysis`; when
`Ready`, each logging line is analysed semantically through the oracle
`fm`. -/
def analyzeLoggingStatements (inited : Bool) (fm : String → List SemanticMatch)
    (code : String) (st : List Nat) : List VulnerabilityIssue × List Nat :=
  if !inited then fallbackKeywordAnalysis code st
  else analyzeSemGo fm st 0 (jsSplitNewline code)

/-! ## `RuleEngine` (rule store and pattern rule detector) -/

/-- A detection rule. -/
structure Rule where
  id : String
  name : String
  description : String
  severity : Severity
  pattern : Option String
  enabled : Bool
deriving DecidableEq, Repr

/-- A versioned rule set. -/
structure RuleSet where
  version : String
  rules : List Rule
deriving DecidableEq, Repr

/-- The single-quote character as a string (used inside the hardcoded-secret
pattern literal). -/
def squoteS : String := String.mk [squoteC]

/-- `RuleEngine.getDefaultRules`: the hard-coded default rule set. -/
def getDefaultRules : RuleSet :=
  { version := "1.0.0",
    rules :=
      [ { id := "naming-convention",
          name := "Constant Naming Convention",
          description := "Static final variables should be in UPPER_CASE_WITH_UNDERSCORES",
          severity := .medium,
          pattern := some "static\\s+final\\s+\\w+\\s+([a-z][A-Za-z0-9_]*)",
          enabled := true },
        { id := "excessive-nesting",
          name := "Excessive Nesting",
          description := "Control structures should not be nested more than 4 levels deep",
          severity := .high,
          pattern := none,
          enabled := true },
        { id := "hardcoded-sensitive-info",
          name := "Hardcoded Sensitive Information",
          description := "API keys, passwords, and secrets should not be hardcoded",
          severity := .critical,
          pattern := some ("(?:api[_-]?key|apikey|secret|password|pwd|token)\\s*=\\s*[\"" ++ squoteS ++
            "]([^\"" ++ squoteS ++ "]\x7b8,\x7d)[\"" ++ squoteS ++ "]"),
          enabled := true } ] }

/-- A raw finding of the pattern rule detector (the source field `match` is
named `matchText` here because `match` is reserved in Lean). -/
structure RawFinding where
  ruleId : String
  line : Nat
  description : String
  severity : Severity
  matchText : String
deriving DecidableEq, Repr

/-- Findings of one compiled rule over the numbered lines.  (On a pattern
that admits an empty match the source's `while (regex.exec(line))` loop would
not terminate; the model advances past empty matches instead, which agrees
with the source on every pattern that cannot match the empty string.) -/
def applyRuleLines (rule : Rule) (r : Regex) : List String → Nat → List RawFinding
  | [], _ => []
  | line :: rest, idx =>
      ((jsMatchG true r line).map fun m =>
        { ruleId := rule.id, line := idx + 1, description := rule.description,
          severity := rule.severity, matchText := m }) ++
      applyRuleLines rule r rest (idx + 1)

/-- One rule of `applyRules`: disabled rules and rules whose `pattern` is
absent or empty (falsy) are skipped without compiling; `new RegExp` on a
malformed pattern throws, modelled by `Except.error`. -/
def applyRulesRule (rule : Rule) (lines : List String) : Except Unit (List RawFinding) :=
  if rule.enabled then
    match rule.pattern with
    | some p =>
        if p = "" then .ok []
        else
          match compilePattern p with
          | none => .error ()
          | some r => .ok (applyRuleLines rule r lines 0)
    | none => .ok []
  else .ok []

/-- Fold of `applyRules` over the rules; an exception thrown while processing
any rule propagates and discards all findings. -/
def applyRulesGo (lines : List String) : List Rule → Except Unit (List RawFinding)
  | [] => .ok []
  | rule :: rest =>
      match applyRulesRule rule lines with
      | .error e => .error e
      | .ok f =>
          match applyRulesGo lines rest with
          | .error e => .error e
          | .ok fs => .ok (f ++ fs)

/-- `RuleEngine.applyRules` on an explicit rule set. -/
def applyRules (rs : RuleSet) (code : String) : Except Unit (List RawFinding) :=
  applyRulesGo (jsSplitNewline code) rs.rules

/-- Abstract state of the rules file: `none` when the file is missing,
`some (.error ())` when reading or parsing it throws (corrupt or
unreadable), `some (.ok rs)` when it reads and parses as `rs`.  `writeFails`
says whether writing the default rules file would throw. -/
structure FsState where
  file : Option (Except Unit RuleSet)
  writeFails : Bool

/-- `RuleEngine.loadRules`: inside the try block, a missing file is first
created from the defaults (the written JSON reads back as `getDefaultRules`);
any exception — from the write, the read, or `JSON.parse` — is caught and
answered with the hard-coded defaults.  The function is total: loading never
fails. -/
def loadRules (fs : FsState) : RuleSet × FsState :=
  match fs.file with
  | none =>
      if fs.writeFails then (getDefaultRules, fs)
      else (getDefaultRules, { fs with file := some (.ok getDefaultRules) })
  | some (.ok rs) => (rs, fs)
  | some (.error _) => (getDefaultRules, fs)

/-! ## `AISuggestionHandler` (suggestion generation and cache,
`src/providers/codeActionProvider.ts`) -/

/-- A generated remediation suggestion. -/
structure VulnerabilitySuggestion where
  id : String
  issueDescription : String
  suggestedFix : String
  aiGeneratedCode : String
  lineNumber : Nat
  fileName : String
  originalCode : String
deriving DecidableEq, Repr

/-- The suggestion cache: a `Map` from suggestion id to suggestion, modelled
as an insertion-ordered association list with unique keys. -/
abbrev SuggestionCache := List (String × VulnerabilitySuggestion)

/-- `Map.prototype.get`. -/
def cacheLookup (c : SuggestionCache) (k : String) : Option VulnerabilitySuggestion :=
  match c with
  | [] => none
  | (k2, v) :: rest => if k2 = k then some v else cacheLookup rest k

/-- `Map.prototype.set`: replace the entry when the key exists, append
otherwise. -/
def cacheSet (c : SuggestionCache) (k : String) (v : VulnerabilitySuggestion) : SuggestionCache :=
  match c with
  | [] => [(k, v)]
  | (k2, v2) :: rest => if k2 = k then (k, v) :: rest else (k2, v2) :: cacheSet rest k v

/-- `ToInt32`: wrap an integer to the 32-bit signed range. -/
def toInt32 (n : Int) : Int :=
  (n + 2 ^ 31) % 2 ^ 32 - 2 ^ 31

/-- One step of `hashString`: `hash = ((hash << 5) - hash) + charCode` with
`hash = hash & hash` wrapping the result to 32 bits (the shift also wraps). -/
def hashStep (h : Int) (c : Char) : Int :=
  toInt32 (toInt32 (h * 32) - h + c.toNat)

/-- `AISuggestionHandler.hashString`: the deterministic 32-bit string hash,
absolute value, in decimal. -/
def hashString (s : String) : String :=
  (s.data.foldl hashStep 0).natAbs.repr

/-- `AISuggestionHandler.getSuggestionKey`. -/
def getSuggestionKey (v : VulnerabilityIssue) : String :=
  v.fileName ++ ":" ++ toString v.lineNumber ++ ":" ++ hashString v.description

/-- The fallback suggestion constructed when generation for an issue throws
(source lines 444–452): the generated code is an explanatory comment plus the
issue's suggested-fix text. -/
def fallbackSuggestion (v : VulnerabilityIssue) : VulnerabilitySuggestion :=
  { id := getSuggestionKey v,
    issueDescription := v.description,
    suggestedFix := if v.suggestedFix = "" then "Manual review required" else v.suggestedFix,
    aiGeneratedCode := "// Suggestion unavailable\n// Please manually fix: " ++ v.suggestedFix,
    lineNumber := v.lineNumber,
    fileName := v.fileName,
    originalCode := "Unable to retrieve original code" }

/-- The suggestion constructed on a successful generation (source lines
426–434). -/
def freshSuggestion (v : VulnerabilityIssue) (originalCode aiCode : String) : VulnerabilitySuggestion :=
  { id := getSuggestionKey v,
    issueDescription := v.description,
    suggestedFix := if v.suggestedFix = "" then "No specific fix provided" else v.suggestedFix,
    aiGeneratedCode := aiCode,
    lineNumber := v.lineNumber,
    fileName := v.fileName,
    originalCode := originalCode }

/-- Result of `generateSuggestions`: the suggestions (one per issue), the
cache afterwards, and — as instrumentation for the "no recomputation"
property — the number of times the generation try-block (context retrieval
plus template synthesis) actually ran. -/
structure GenResult where
  suggestions : List VulnerabilitySuggestion
  cache : SuggestionCache
  genCount : Nat
deriving DecidableEq, Repr

/-- `AISuggestionHandler.generateSuggestions`, processing issues one at a
time.  `ctx` abstracts `getCodeContext` (it reads the active editor, an
external capability, and may fail) and `tmpl` abstracts
`generateRuleBasedSuggestion`.  A cached key is answered from the cache with
no generation; otherwise a suggestion is built and cached, falling back to
`fallbackSuggestion` when generation throws. -/
def generateSuggestions (ctx : VulnerabilityIssue → Except Unit String)
    (tmpl : VulnerabilityIssue → String → String) (cache : SuggestionCache) :
    List VulnerabilityIssue → GenResult
  | [] => { suggestions := [], cache := cache, genCount := 0 }
  | v :: rest =>
      let key := getSuggestionKey v
      match cacheLookup cache key with
      | some s =>
          let r := generateSuggestions ctx tmpl cache rest
          { suggestions := s :: r.suggestions, cache := r.cache, genCount := r.genCount }
      | none =>
          match ctx v with
          | .ok orig =>
              let s := freshSuggestion v orig (tmpl v orig)
              let r := generateSuggestions ctx tmpl (cacheSet cache key s) rest
              { suggestions := s :: r.suggestions, cache := r.cache, genCount := r.genCount + 1 }
          | .error _ =>
              let s := fallbackSuggestion v
              let r := generateSuggestions ctx tmpl (cacheSet cache key s) rest
              { suggestions := s :: r.suggestions, cache := r.cache, genCount := r.genCount + 1 }

/-- `AISuggestionHandler.clearCache`. -/
def clearSuggestionCache (_c : SuggestionCache) : SuggestionCache := []

/-- `AISuggestionHandler.getSuggestion`. -/
def getSuggestion (c : SuggestionCache) (suggestionId : String) : Option VulnerabilitySuggestion :=
  cacheLookup c suggestionId

/-! ## Concrete inputs used by the theorems below -/

/-- A logging line recognized only through the `System.out.println` pattern. -/
def statefulInput : String := "System.out.println(a.getPassword());"

/-- A logging line carrying the `password` keyword. -/
def kwFallbackInput : String := "LOGGER.info(password);"

/-- The example line of the specification. -/
def passwordExampleInput : String :=
  "LOGGER.info(\"User password: \" + user.getPassword());"

/-- The issue the sensitive-logging catalog emits for
`passwordExampleInput`. -/
def passwordLogIssue : VulnerabilityIssue :=
  { fileName := "",
    lineNumber := 1,
    description := "Password/secret data is being logged - security risk: \".getPassword()\"",
    severity := .high,
    message := "Sensitive data is been exposed in log",
    suggestedFix := "Never log passwords or secrets. Remove \".getPassword()\" from log statement. Use masked values like \"***\" for debugging if necessary." }

/-- The keyword-fallback issue for `kwFallbackInput`. -/
def kwMediumIssue : VulnerabilityIssue :=
  { fileName := "",
    lineNumber := 1,
    description := "Potential sensitive keyword detected in logging: \"password\" (keyword matching)",
    severity := .medium,
    message := "Potential sensitive information detected in logging:",
    suggestedFix := "Review and remove sensitive keyword \"password\" from logging statement." }

/-- An enabled rule with a malformed pattern (`new RegExp("(")` throws). -/
def badRegexRule : Rule :=
  { id := "bad-regex", name := "Bad", description := "Malformed rule",
    severity := .high, pattern := some "(", enabled := true }

/-- An enabled, well-formed, matching rule. -/
def goodRule : Rule :=
  { id := "good", name := "Good", description := "Well-formed rule",
    severity := .low, pattern := some "password", enabled := true }

/-- A rule set containing a malformed rule next to a well-formed one. -/
def malformedRuleSet : RuleSet :=
  { version := "1.0.0", rules := [badRegexRule, goodRule] }

/-- The same rule set without the malformed rule. -/
def wellFormedRuleSet : RuleSet :=
  { version := "1.0.0", rules := [goodRule] }

/-- A rule set whose only rule has an empty description. -/
def emptyDescRuleSet : RuleSet :=
  { version := "1.0.0",
    rules := [{ id := "nodesc", name := "", description := "", severity := .low,
                pattern := some "password", enabled := true }] }

/-- The finding `applyRules` emits for `emptyDescRuleSet` on the text
`password`. -/
def emptyDescFinding : RawFinding :=
  { ruleId := "nodesc", line := 1, description := "", severity := .low,
    matchText := "password" }

/-- A sample issue for the suggestion-cache theorems. -/
def sampleIssue : VulnerabilityIssue :=
  { fileName := "Main.java",
    lineNumber := 3,
    description := "Sensitive credential field is being logged: \".password\"",
    severity := .high,
    message := "Sensitive data is been exposed in log",
    suggestedFix := "Never log passwords or secrets." }

/-- A context-retrieval oracle that always throws. -/
def failCtx : VulnerabilityIssue → Except Unit String := fun _ => .error ()

/-- A trivial template oracle. -/
def emptyTmpl : VulnerabilityIssue → String → String := fun _ _ => ""

/-- A semantic-match oracle that finds nothing. -/
def noSemMatches : String → List SemanticMatch := fun _ => []

/-- A one-entry suggestion cache. -/
def cachedSample : SuggestionCache := [("k1", fallbackSuggestion sampleIssue)]

/-! ## Helper lemmas -/

/-- A string with a nonempty right append factor is nonempty. -/
theorem str_append_ne_empty (a b : String) (hb : b ≠ "") : a ++ b ≠ "" := by
  obtain ⟨la⟩ := a
  obtain ⟨lb⟩ := b
  intro h
  apply hb
  have hdata : la ++ lb = [] := congrArg String.data h
  have h2 := (List.append_eq_nil.mp hdata).2
  cases h2
  rfl

/-- `cacheSet` stores the entry under its key. -/
theorem cacheLookup_cacheSet (c : SuggestionCache) (k : String) (v : VulnerabilitySuggestion) :
    cacheLookup (cacheSet c k v) k = some v := by
  induction c with
  | nil => simp [cacheSet, cacheLookup]
  | cons hd tl ih =>
      obtain ⟨k2, v2⟩ := hd
      by_cases h : k2 = k <;> simp [cacheSet, cacheLookup, h, ih]

/-- `generateSuggestions` yields exactly one suggestion per input issue. -/
theorem generateSuggestions_length (ctx : VulnerabilityIssue → Except Unit String)
    (tmpl : VulnerabilityIssue → String → String) (cache : SuggestionCache)
    (issues : List VulnerabilityIssue) :
    (generateSuggestions ctx tmpl cache issues).suggestions.length = issues.length := by
  induction issues generalizing cache with
  | nil => simp [generateSuggestions]
  | cons v rest ih =>
      simp only [generateSuggestions]
      cases cacheLookup cache (getSuggestionKey v) with
      | some s => simp [ih]
      | none =>
          cases ctx v with
          | ok orig => simp [ih]
          | error e => simp [ih]

/-- Catalog issues carry the given line number and a nonempty description. -/
theorem mem_checkSensitivePatterns {line : String} {n : Nat} {i : VulnerabilityIssue}
    (h : i ∈ checkSensitivePatterns line n) : i.lineNumber = n ∧ i.description ≠ "" := by
  simp only [checkSensitivePatterns, List.mem_flatMap, List.mem_map] at h
  obtain ⟨sp, _, m, _, rfl⟩ := h
  exact ⟨rfl, str_append_ne_empty _ _ (by decide)⟩

/-- Issues of the sensitive-logging loop have positive line numbers and
nonempty descriptions. -/
theorem mem_checkLSGo {lines : List String} {st : List Nat} {idx : Nat}
    {i : VulnerabilityIssue} (h : i ∈ (checkLSGo st idx lines).1) :
    1 ≤ i.lineNumber ∧ i.description ≠ "" := by
  induction lines generalizing st idx with
  | nil => simp [checkLSGo] at h
  | cons line rest ih =>
      simp only [checkLSGo, List.mem_append] at h
      rcases h with h | h
      · by_cases hc : (someTestG true loggerPatterns line st).1
        · rw [if_pos hc] at h
          obtain ⟨h1, h2⟩ := mem_checkSensitivePatterns h
          exact ⟨by rw [h1]; omega, h2⟩
        · rw [if_neg hc] at h
          cases h
      · exact ih h

/-- Keyword-fallback issues carry the given line number, a nonempty
description and severity `medium`. -/
theorem mem_fallbackLineAnalysis {line : String} {n : Nat} {i : VulnerabilityIssue}
    (h : i ∈ fallbackLineAnalysis line n) :
    i.lineNumber = n ∧ i.description ≠ "" ∧ i.severity = .medium := by
  simp only [fallbackLineAnalysis, List.mem_flatMap, List.mem_map] at h
  obtain ⟨kw, _, m, _, rfl⟩ := h
  exact ⟨rfl, str_append_ne_empty _ _ (by decide), rfl⟩

/-- Issues of the keyword-fallback loop: positive line number, nonempty
description, severity `medium`. -/
theorem mem_fallbackKWGo {lines : List String} {st : List Nat} {idx : Nat}
    {i : VulnerabilityIssue} (h : i ∈ (fallbackKWGo st idx lines).1) :
    1 ≤ i.lineNumber ∧ i.description ≠ "" ∧ i.severity = .medium := by
  induction lines generalizing st idx with
  | nil => simp [fallbackKWGo] at h
  | cons line rest ih =>
      simp only [fallbackKWGo, List.mem_append] at h
      rcases h with h | h
      · by_cases hc : (someTestG true semLoggingPatterns line st).1
        · rw [if_pos hc] at h
          obtain ⟨h1, h2, h3⟩ := mem_fallbackLineAnalysis h
          exact ⟨by rw [h1]; omega, h2, h3⟩
        · rw [if_neg hc] at h
          cases h
      · exact ih h

/-- Semantic-path issues carry the given line number and a nonempty
description. -/
theorem mem_analyzeLoggingLine {fm : String → List SemanticMatch} {line : String}
    {n : Nat} {i : VulnerabilityIssue} (h : i ∈ analyzeLoggingLine fm line n) :
    i.lineNumber = n ∧ i.description ≠ "" := by
  simp only [analyzeLoggingLine, List.mem_flatMap, List.mem_map, List.mem_filter] at h
  obtain ⟨content, _, m, _, rfl⟩ := h
  exact ⟨rfl, str_append_ne_empty _ _ (by decide)⟩

/-- Issues of the semantic loop: positive line number, nonempty
description. -/
theorem mem_analyzeSemGo {fm : String → List SemanticMatch} {lines : List String}
    {st : List Nat} {idx : Nat} {i : VulnerabilityIssue}
    (h : i ∈ (analyzeSemGo fm st idx lines).1) :
    1 ≤ i.lineNumber ∧ i.description ≠ "" := by
  induction lines generalizing st idx with
  | nil => simp [analyzeSemGo] at h
  | cons line rest ih =>
      simp only [analyzeSemGo, List.mem_append] at h
      rcases h with h | h
      · by_cases hc : (someTestG true semLoggingPatterns line st).1
        · rw [if_pos hc] at h
          obtain ⟨h1, h2⟩ := mem_analyzeLoggingLine h
          exact ⟨by rw [h1]; omega, h2⟩
        · rw [if_neg hc] at h
          cases h
      · exact ih h

/-- Pattern-rule findings have positive line numbers and copy the rule's
description verbatim. -/
theorem mem_applyRuleLines {rule : Rule} {r : Regex} {lines : List String}
    {idx : Nat} {f : RawFinding} (h : f ∈ applyRuleLines rule r lines idx) :
    1 ≤ f.line ∧ f.description = rule.description := by
  induction lines generalizing idx with
  | nil => simp [applyRuleLines] at h
  | cons line rest ih =>
      simp only [applyRuleLines, List.mem_append, List.mem_map] at h
      rcases h with ⟨m, _, rfl⟩ | h
      · exact ⟨Nat.succ_le_succ (Nat.zero_le idx), rfl⟩
      · exact ih h

/-- Findings of one rule of `applyRules`: positive line number, description
copied from the rule. -/
theorem applyRulesRule_ok {rule : Rule} {lines : List String} {fs : List RawFinding}
    {f : RawFinding} (h : applyRulesRule rule lines = .ok fs) (hf : f ∈ fs) :
    1 ≤ f.line ∧ f.description = rule.description := by
  unfold applyRulesRule at h
  split at h
  · split at h
    · split at h
      · simp only [Except.ok.injEq] at h
        subst h
        cases hf
      · split at h
        · cases h
        · simp only [Except.ok.injEq] at h
          subst h
          exact mem_applyRuleLines hf
    · simp only [Except.ok.injEq] at h
      subst h
      cases hf
  · simp only [Except.ok.injEq] at h
    subst h
    cases hf

/-- Findings of the `applyRules` fold, when the fold succeeds: every finding
has a positive line number, and its description is copied from one of the
rules. -/
theorem applyRulesGo_ok {lines : List String} {rules : List Rule}
    {fs : List RawFinding} (h : applyRulesGo lines rules = .ok fs) :
    ∀ f ∈ fs, 1 ≤ f.line ∧ ∃ r ∈ rules, f.description = r.description := by
  induction rules generalizing fs with
  | nil =>
      simp only [applyRulesGo] at h
      injection h with h
      subst h
      intro f hf
      cases hf
  | cons rule rest ih =>
      simp only [applyRulesGo] at h
      cases h1 : applyRulesRule rule lines with
      | error e => rw [h1] at h; cases h
      | ok f1 =>
          rw [h1] at h
          cases h2 : applyRulesGo lines rest with
          | error e => rw [h2] at h; cases h
          | ok f2 =>
              rw [h2] at h
              injection h with h
              subst h
              intro f hf
              rcases List.mem_append.mp hf with hf1 | hf2
              · have hr := applyRulesRule_ok h1 hf1
                exact ⟨hr.1, rule, List.mem_cons_self _ _, hr.2⟩
              · obtain ⟨hl, r, hrmem, hrdesc⟩ := ih h2 f hf2
                exact ⟨hl, r, List.mem_cons_of_mem _ hrmem, hrdesc⟩

/-- A malformed enabled rule anywhere in the list makes the fold abort. -/
theorem applyRulesGo_error {lines : List String} {rules : List Rule} {r : Rule}
    (hmem : r ∈ rules) (he : r.enabled = true) {p : String}
    (hp : r.pattern = some p) (hne : p ≠ "") (hc : compilePattern p = none) :
    applyRulesGo lines rules = .error () := by
  induction rules with
  | nil => cases hmem
  | cons hd tl ih =>
      rcases List.mem_cons.mp hmem with heq | hmem2
      · have hrr : applyRulesRule hd lines = .error () := by
          subst heq
          simp [applyRulesRule, he, hp, hne, hc]
        simp only [applyRulesGo]
        rw [hrr]
      · simp only [applyRulesGo]
        cases h1 : applyRulesRule hd lines with
        | error e => cases e; rfl
        | ok f1 => rw [ih hmem2]

/-! ## Claim theorems -/

/-- Claim C2: on the single line
`LOGGER.info("User password: " + user.getPassword());` the sensitive-logging
detector (fresh instance) produces at least one high-severity issue whose
description references "password". -/
theorem passwordExample_detected :
    ((checkLoggingSensitivity passwordExampleInput freshCheckerState).1.any fun i =>
      decide (i.severity = Severity.high) &&
      containsSub "password".data (lowerStr i.description).data) = true := by
  decide

/-- Claim C5: the hard-coded default rule set contains the
constant-naming-convention rule with severity `medium`, the excessive-nesting
rule with severity `high` and no pattern, and the
hardcoded-sensitive-information rule with severity `critical` backed by a
nonempty pattern; all three are enabled. -/
theorem defaultRules_catalog :
    (∃ r ∈ getDefaultRules.rules, r.id = "naming-convention" ∧
      r.name = "Constant Naming Convention" ∧ r.severity = .medium ∧ r.enabled = true) ∧
    (∃ r ∈ getDefaultRules.rules, r.id = "excessive-nesting" ∧
      r.severity = .high ∧ r.pattern = none ∧ r.enabled = true) ∧
    (∃ r ∈ getDefaultRules.rules, r.id = "hardcoded-sensitive-info" ∧
      r.severity = .critical ∧ r.pattern.getD "" ≠ "" ∧ r.enabled = true) := by
  decide

/-- Claim C4: loading the rule store never fails (the result type is total):
a missing file is first created from the defaults and those defaults are
returned; an unwritable store, and a file whose read or parse throws, are
answered with the hard-coded default rule set. -/
theorem loadRules_recovers (fs : FsState) :
    (fs.file = none → fs.writeFails = false →
      loadRules fs = (getDefaultRules, { fs with file := some (.ok getDefaultRules) })) ∧
    (fs.file = none → fs.writeFails = true → loadRules fs = (getDefaultRules, fs)) ∧
    (fs.file = some (.error ()) → loadRules fs = (getDefaultRules, fs)) ∧
    (∀ rs, fs.file = some (.ok rs) → loadRules fs = (rs, fs)) := by
  refine ⟨?_, ?_, ?_, ?_⟩
  · intro h1 h2
    simp [loadRules, h1, h2]
  · intro h1 h2
    simp [loadRules, h1, h2]
  · intro h1
    simp [loadRules, h1]
  · intro rs h1
    simp [loadRules, h1]

/-- Witness for C4 at two concrete stores: a missing writable store, and a
corrupt store. -/
theorem loadRules_recovers_witness :
    loadRules ⟨none, false⟩ = (getDefaultRules, ⟨some (.ok getDefaultRules), false⟩) ∧
    loadRules ⟨some (.error ()), false⟩ = (getDefaultRules, ⟨some (.error ()), false⟩) :=
  ⟨(loadRules_recovers ⟨none, false⟩).1 rfl rfl,
   (loadRules_recovers ⟨some (.error ()), false⟩).2.2.1 rfl⟩

/-- Claim C9: after clearing the cache, looking up any previously cached
suggestion id returns not-found. -/
theorem clearCache_lookup_none (c : SuggestionCache) (suggestionId : String)
    (h : (getSuggestion c suggestionId).isSome = true) :
    getSuggestion (clearSuggestionCache c) suggestionId = none := by
  simp [getSuggestion, clearSuggestionCache, cacheLookup]

/-- Witness for C9 at a concrete one-entry cache. -/
theorem clearCache_lookup_none_witness :
    getSuggestion (clearSuggestionCache cachedSample) "k1" = none :=
  clearCache_lookup_none cachedSample "k1" (by decide)

/-- Claim C7: a second `generateSuggestions` call for the same issue (same
fileName, lineNumber, description — hence the same key) returns the identical
suggestion from the cache, runs the generation block zero times regardless of
the oracles, and leaves the cache unchanged; the key is
`fileName : lineNumber : hash(description)`. -/
theorem generateSuggestions_second_call_cached
    (ctx ctx2 : VulnerabilityIssue → Except Unit String)
    (tmpl tmpl2 : VulnerabilityIssue → String → String)
    (cache : SuggestionCache) (v : VulnerabilityIssue) :
    (generateSuggestions ctx2 tmpl2 (generateSuggestions ctx tmpl cache [v]).cache [v] =
      { suggestions := (generateSuggestions ctx tmpl cache [v]).suggestions,
        cache := (generateSuggestions ctx tmpl cache [v]).cache,
        genCount := 0 }) ∧
    getSuggestionKey v =
      v.fileName ++ ":" ++ toString v.lineNumber ++ ":" ++ hashString v.description := by
  refine ⟨?_, rfl⟩
  cases h : cacheLookup cache (getSuggestionKey v) with
  | some s => simp [generateSuggestions, h]
  | none =>
      cases hc : ctx v with
      | ok orig => simp [generateSuggestions, h, hc, cacheLookup_cacheSet]
      | error e => simp [generateSuggestions, h, hc, cacheLookup_cacheSet]

/-- Claim C8: `generateSuggestions` returns exactly one suggestion per input
issue, and when generation throws for an uncached issue the failure is not
propagated: the fallback suggestion (explanatory comment plus the issue's
suggested-fix text) is returned, cached under the issue's key, and counted as
one generation attempt. -/
theorem generateSuggestions_total_with_fallback
    (ctx : VulnerabilityIssue → Except Unit String)
    (tmpl : VulnerabilityIssue → String → String) (v : VulnerabilityIssue)
    (cache : SuggestionCache) (issues : List VulnerabilityIssue)
    (h1 : ctx v = .error ()) (h2 : cacheLookup cache (getSuggestionKey v) = none) :
    (generateSuggestions ctx tmpl cache issues).suggestions.length = issues.length ∧
    generateSuggestions ctx tmpl cache [v] =
      { suggestions := [fallbackSuggestion v],
        cache := cacheSet cache (getSuggestionKey v) (fallbackSuggestion v),
        genCount := 1 } := by
  refine ⟨generateSuggestions_length ctx tmpl cache issues, ?_⟩
  simp [generateSuggestions, h1, h2]

/-- Witness for C8: a failing generator on a fresh cache produces exactly the
fallback suggestion. -/
theorem generateSuggestions_total_with_fallback_witness :
    (generateSuggestions failCtx emptyTmpl [] [sampleIssue]).suggestions.length = 1 ∧
    generateSuggestions failCtx emptyTmpl [] [sampleIssue] =
      { suggestions := [fallbackSuggestion sampleIssue],
        cache := cacheSet [] (getSuggestionKey sampleIssue) (fallbackSuggestion sampleIssue),
        genCount := 1 } :=
  generateSuggestions_total_with_fallback failCtx emptyTmpl sampleIssue [] [sampleIssue] rfl rfl

/-- Claim C1 (the code contradicts it): the `g`-flagged logging regexes are
instance state and `pattern.test(line)` advances their `lastIndex`, so a
second identical call on the same detector instance misses the logging line:
both the sensitive-logging check and the semantic analyzer's keyword fallback
return one issue on the first call and none on the second. -/
theorem repeated_analysis_differs :
    ((checkLoggingSensitivity statefulInput freshCheckerState).1.length = 1 ∧
     (checkLoggingSensitivity statefulInput
       (checkLoggingSensitivity statefulInput freshCheckerState).2).1 = []) ∧
    ((fallbackKeywordAnalysis kwFallbackInput freshAnalyzerState).1.length = 1 ∧
     (fallbackKeywordAnalysis kwFallbackInput
       (fallbackKeywordAnalysis kwFallbackInput freshAnalyzerState).2).1 = []) := by
  decide

/-- Counterexample to C3 as stated: with a malformed rule present, applying
the rules aborts with the `RegExp` construction error and returns no findings
at all, even though the well-formed rule alone yields a finding on the same
text. -/
theorem applyRules_aborts_on_malformed :
    applyRules malformedRuleSet "my password" = .error () ∧
    applyRules wellFormedRuleSet "my password" =
      .ok [{ ruleId := "good", line := 1, description := "Well-formed rule",
             severity := .low, matchText := "password" }] := by
  decide

/-- Claim C3 (amended): whenever a rule set contains an enabled rule with a
nonempty malformed pattern, `applyRules` propagates the regex-construction
error for every source text — the malformed rule is not skipped and no
findings (not even those of well-formed rules) are returned. -/
theorem applyRules_error_propagates (rs : RuleSet) (code : String) (r : Rule)
    (hmem : r ∈ rs.rules) (he : r.enabled = true) (p : String)
    (hp : r.pattern = some p) (hne : p ≠ "") (hc : compilePattern p = none) :
    applyRules rs code = .error () :=
  applyRulesGo_error hmem he hp hne hc

/-- Witness for the amended C3 at the concrete malformed rule set. -/
theorem applyRules_error_propagates_witness :
    applyRules malformedRuleSet "static final" = .error () :=
  applyRules_error_propagates malformedRuleSet "static final" badRegexRule
    (by decide) rfl "(" rfl (by decide) rfl

/-- Counterexample to C6 as stated: with the backend uninitialized, the
keyword fallback flags `password` — a Credentials-catalog keyword the claim
maps to severity high — with severity `medium`. -/
theorem fallback_password_is_medium :
    (analyzeLoggingStatements false noSemMatches kwFallbackInput freshAnalyzerState).1 =
      [kwMediumIssue] ∧ kwMediumIssue.severity = .medium := by
  decide

/-- Claim C6 (amended): whenever the embedding backend is not initialized,
every analysis call degrades to keyword-only matching, but each emitted issue
carries the fixed severity `medium` and a generic keyword-matching
description — the catalog's category-to-severity mapping is not applied. -/
theorem uninitialized_degrades_to_keywords (fm : String → List SemanticMatch)
    (code : String) (st : List Nat) :
    analyzeLoggingStatements false fm code st = fallbackKeywordAnalysis code st ∧
    ∀ i ∈ (analyzeLoggingStatements false fm code st).1, i.severity = .medium := by
  refine ⟨rfl, ?_⟩
  intro i hi
  exact (mem_fallbackKWGo hi).2.2

/-- Witness for the amended C6 at the concrete input. -/
theorem uninitialized_degrades_to_keywords_witness :
    analyzeLoggingStatements false noSemMatches kwFallbackInput freshAnalyzerState =
      fallbackKeywordAnalysis kwFallbackInput freshAnalyzerState ∧
    kwMediumIssue.severity = .medium :=
  ⟨(uninitialized_degrades_to_keywords noSemMatches kwFallbackInput freshAnalyzerState).1,
   (uninitialized_degrades_to_keywords noSemMatches kwFallbackInput freshAnalyzerState).2
     kwMediumIssue (by decide)⟩

/-- Counterexample to C10 as stated: the pattern rule detector copies the
rule's description verbatim, so a rule with an empty description emits a
finding with an empty description. -/
theorem emptyDesc_rule_empty_finding :
    applyRules emptyDescRuleSet "password" =
      .ok [{ ruleId := "nodesc", line := 1, description := "",
             severity := .low, matchText := "password" }] := by
  decide

/-- Claim C10 (amended): every issue of the sensitive-logging detector and of
the semantic analyzer (both paths) has `lineNumber ≥ 1` and a nonempty
description; every pattern-rule finding has `line ≥ 1` unconditionally — even
when the rule set contains empty-description rules — and its description is
nonempty provided every rule of the applied rule set has a nonempty
description (as all default rules do). -/
theorem issue_invariants :
    (∀ code st i, i ∈ (checkLoggingSensitivity code st).1 →
      1 ≤ i.lineNumber ∧ i.description ≠ "") ∧
    (∀ inited fm code st i, i ∈ (analyzeLoggingStatements inited fm code st).1 →
      1 ≤ i.lineNumber ∧ i.description ≠ "") ∧
    (∀ rs code fs, applyRules rs code = .ok fs →
      ∀ f ∈ fs, 1 ≤ f.line ∧
        ((∀ r ∈ rs.rules, r.description ≠ "") → f.description ≠ "")) ∧
    (∀ r ∈ getDefaultRules.rules, r.description ≠ "") := by
  refine ⟨?_, ?_, ?_, by decide⟩
  · intro code st i hi
    exact mem_checkLSGo hi
  · intro inited fm code st i hi
    cases inited with
    | false =>
        have hi2 : i ∈ (fallbackKWGo st 0 (jsSplitNewline code)).1 := hi
        have h3 := mem_fallbackKWGo hi2
        exact ⟨h3.1, h3.2.1⟩
    | true => exact mem_analyzeSemGo hi
  · intro rs code fs h f hf
    obtain ⟨hl, r, hrmem, hrdesc⟩ := applyRulesGo_ok h f hf
    refine ⟨hl, fun hdesc => ?_⟩
    rw [hrdesc]
    exact hdesc r hrmem

/-- Witness for the amended C10: the specification's example line for the
catalog detector, and the empty-description rule set for the unconditional
line-number half of the pattern-rule conjunct. -/
theorem issue_invariants_witness :
    (1 ≤ passwordLogIssue.lineNumber ∧ passwordLogIssue.description ≠ "") ∧
    1 ≤ emptyDescFinding.line :=
  ⟨issue_invariants.1 passwordExampleInput freshCheckerState passwordLogIssue (by decide),
   (issue_invariants.2.2.1 emptyDescRuleSet "password" [emptyDescFinding] (by decide)
     emptyDescFinding (by decide)).1⟩

